import Mathlib

/-!
# Verification of the Lichess move-synchronization core

Shallow embedding of `src/lichess_ws.rs` (the `LichessWebSocket` transport
session: `send_move` and `process_messages`) and `src/auto_move.rs` (the
`AutoMoveController` dispatcher: `execute_auto_move`, `should_auto_move`).

Modelling conventions:
* The shared mutable session (`Arc<Mutex<..>>` / atomics) is a record
  `SessionState`; every operation is explicit state passing.
* The websocket transport is externalized: an outbound write either succeeds
  or fails with an error string (`Option String`, `none` = success), and the
  inbound side of one `process_messages` call is the finite list of results
  the non-blocking reads produce (`WsRead`), ending in would-block, a close
  frame, or a fatal read error.
* Rust errors are the exact `String` values the source constructs.
* `u32` values are `Nat`; the one place the source truncates (`ply as u32`
  after `as_u64`) is modelled with an explicit `% 4294967296`.
* `Instant`s are `Nat` milliseconds; `now.duration_since(last)` is `Nat`
  subtraction (in the source `now` is taken after `last`, so `last ≤ now`).
-/

/-- State of `LichessWebSocket` (src/lichess_ws.rs): `current_ack: AtomicU32`,
`game_ended: AtomicBool`, `pending_move: Mutex<Option<String>>`,
`last_move_acked: AtomicBool`, `game_id: String`. -/
structure SessionState where
  current_ack : Nat
  game_ended : Bool
  pending_move : Option String
  last_move_acked : Bool
  game_id : String
deriving DecidableEq

/-- The single outbound frame kind: the JSON
`{"t":"move","d":{"u":uci,"a":ack,"b":berserk01,"l":lag_ms}}` built in
`send_move`, kept as its four payload fields. -/
structure Frame where
  u : String
  a : Nat
  b : Nat
  l : Nat
deriving DecidableEq

/-- The guard section of `send_move`: first the `game_ended` load, then the
`pending_move` lock/check, each in its own critical section in the source.
Returns the error string the source returns, or `none` when both guards
pass. -/
def sendMoveCheck (s : SessionState) : Option String :=
  if s.game_ended then some "Game has ended"
  else if s.pending_move.isSome then some "Move already pending"
  else none

/-- The commit section of `send_move`: sets `pending_move = Some(uci)`,
stores `last_move_acked = false`, loads `current_ack`, builds the move frame
and writes it. `wres` is the transport write outcome (`none` = the
`ws.send` succeeded, `some e` = it failed with error `e`). -/
def sendMoveCommit (s : SessionState) (uci : String) (lag_ms : Nat)
    (berserked : Bool) (wres : Option String) :
    Except String Unit × SessionState × List Frame :=
  let s1 : SessionState := { s with pending_move := some uci, last_move_acked := false }
  let frame : Frame := ⟨uci, s1.current_ack, if berserked then 1 else 0, lag_ms⟩
  match wres with
  | none => (Except.ok (), s1, [frame])
  | some e => (Except.error ("Failed to send move: " ++ e), s1, [])

/-- `LichessWebSocket::send_move`: guards, then commit.  Result is the Rust
return value, the session state afterwards, and the list of frames actually
written to the transport (empty or a singleton). -/
def send_move (s : SessionState) (uci : String) (lag_ms : Nat)
    (berserked : Bool) (wres : Option String) :
    Except String Unit × SessionState × List Frame :=
  match sendMoveCheck s with
  | some e => (Except.error e, s, [])
  | none => sendMoveCommit s uci lag_ms berserked wres

/-- The fields of a decoded `move` payload `d` that `process_messages`
inspects: `ply` (via `as_u64`), `uci`, `u`, `fen` (via `as_str`), and whether
`status` / `winner` keys are present. -/
structure MoveD where
  ply : Option Nat
  uci : Option String
  u : Option String
  fen : Option String
  status_present : Bool
  winner_present : Bool
deriving DecidableEq

/-- A decoded inbound text frame, by its `"t"` tag: `ack`, `endData`,
`move` (with its payload `d`, when the `d` key is an object), `reload`,
`resync`, `crowd`, or an unrecognized tag. -/
inductive LichessMsg where
  | ack : LichessMsg
  | endData : LichessMsg
  | move : Option MoveD → LichessMsg
  | reload : LichessMsg
  | resync : LichessMsg
  | crowd : LichessMsg
  | unknown : LichessMsg
deriving DecidableEq

/-- One result of the non-blocking `ws.read()` inside `process_messages`:
a text frame (`none` when the text is not JSON or has no string `"t"` tag),
a ping (with the outcome of the answering pong write), a close frame, any
other frame kind, the would-block condition, or a fatal read error. -/
inductive WsRead where
  | text : Option LichessMsg → WsRead
  | ping : Option String → WsRead
  | close : WsRead
  | other : WsRead
  | wouldBlock : WsRead
  | fatal : String → WsRead

/-- The `current_ack.store(ply as u32)` update of the `"move"` arm, applied
when the payload carries a `ply`. -/
def moveAckUpdate (s : SessionState) (d : MoveD) : SessionState :=
  match d.ply with
  | some p => { s with current_ack := p % 4294967296 }
  | none => s

/-- The strings the `"move"` arm pushes onto `messages`, in source order:
`MOVE:` from `uci` (falling back to `u`), then `FEN:`, then `GAME_END` when
`status` or `winner` is present. -/
def moveMsgs (d : MoveD) : List String :=
  (match d.uci with
   | some uc => ["MOVE:" ++ uc]
   | none =>
     match d.u with
     | some u0 => ["MOVE:" ++ u0]
     | none => []) ++
  (match d.fen with
   | some f => ["FEN:" ++ f]
   | none => []) ++
  (if d.status_present || d.winner_present then ["GAME_END"] else [])

/-- The `match msg_type` dispatch of `process_messages` for one decoded text
frame: the new session state and the strings pushed onto `messages`. -/
def processText (s : SessionState) (m : LichessMsg) : SessionState × List String :=
  match m with
  | .ack => ({ s with last_move_acked := true, pending_move := none }, [])
  | .endData => ({ s with game_ended := true }, ["GAME_END"])
  | .move none => (s, [])
  | .move (some d) =>
    (if d.status_present || d.winner_present then
       { moveAckUpdate s d with game_ended := true }
     else moveAckUpdate s d,
     moveMsgs d)
  | .reload => ({ s with pending_move := none }, [])
  | .resync => ({ s with pending_move := none }, [])
  | .crowd => (s, [])
  | .unknown => (s, [])

/-- The read loop of `process_messages`: `acc` is the `messages` vector so
far. Would-block, close, and any other read error `break` (returning
`Ok(messages)`); a failed pong write returns `Err(..)` via `?`. -/
def drainGo : SessionState → List String → List WsRead →
    SessionState × Except String (List String)
  | s, acc, [] => (s, Except.ok acc)
  | s, acc, r :: rest =>
    match r with
    | .text none => drainGo s acc rest
    | .text (some m) =>
      let p := processText s m
      drainGo p.1 (acc ++ p.2) rest
    | .ping none => drainGo s acc rest
    | .ping (some e) => (s, Except.error ("Failed to send pong: " ++ e))
    | .close => (s, Except.ok acc)
    | .other => drainGo s acc rest
    | .wouldBlock => (s, Except.ok acc)
    | .fatal _ => (s, Except.ok acc)

/-- `LichessWebSocket::process_messages`, over the reads this call's loop
consumes.  Returns the session state afterwards and the Rust return value. -/
def process_messages (s : SessionState) (reads : List WsRead) :
    SessionState × Except String (List String) :=
  drainGo s [] reads

/-- `LichessWebSocket::is_game_ended`. -/
def is_game_ended (s : SessionState) : Bool :=
  s.game_ended

/-- State of `AutoMoveController` (src/auto_move.rs). -/
structure AutoMoveController where
  enabled : Bool
  panic_mode : Bool
  engine_calculating : Bool
  last_move_sent : Option String
  last_move_time : Option Nat
deriving DecidableEq

/-- `AutoMoveController::new`. -/
def AutoMoveController.new : AutoMoveController :=
  ⟨false, false, false, none, none⟩

/-- `AutoMoveController::should_auto_move`. -/
def should_auto_move (c : AutoMoveController) (is_our_turn : Bool) : Bool :=
  if !c.enabled then false
  else if !is_our_turn then false
  else if c.engine_calculating then false
  else true

/-- The duplicate guard at the top of `execute_auto_move`: true when the
last sent move equals `uci` and was sent less than 500 ms before `now`. -/
def isDuplicate (c : AutoMoveController) (uci : String) (now : Nat) : Bool :=
  match c.last_move_sent, c.last_move_time with
  | some lastUci, some lastTime => lastUci == uci && decide (now - lastTime < 500)
  | _, _ => false

/-- `AutoMoveController::execute_auto_move` at time `now` against session
state `s`, with transport write outcome `wres`.  Returns the Rust `bool`,
the controller and session states afterwards, and the frames written. -/
def execute_auto_move (c : AutoMoveController) (uci : String) (now : Nat)
    (s : SessionState) (wres : Option String) :
    Bool × AutoMoveController × SessionState × List Frame :=
  if isDuplicate c uci now then (false, c, s, [])
  else
    let c1 := { c with last_move_sent := some uci, last_move_time := some now }
    let lag_ms := if c.panic_mode then 50 else 20
    let berserked := c.panic_mode
    match send_move s uci lag_ms berserked wres with
    | (Except.ok _, s1, fs) => (true, c1, s1, fs)
    | (Except.error _, s1, fs) => (false, c1, s1, fs)

/-- Whether a Rust `Result` is `Ok`. -/
def isOkB (r : Except String Unit) : Bool :=
  match r with
  | Except.ok _ => true
  | Except.error _ => false

/-- The interleaving of two concurrent `send_move` calls in which both guard
sections run (against the same initial state) before either commit section
runs — possible in the source because the guard's `pending_move` lock is
released before the commit re-acquires it.  Thread 1 commits first. -/
def racedSubmits (s : SessionState) (m1 m2 : String) (lag : Nat) (b : Bool)
    (w1 w2 : Option String) :
    (Except String Unit × Except String Unit) × SessionState × List Frame :=
  match sendMoveCheck s, sendMoveCheck s with
  | some e1, some e2 => ((Except.error e1, Except.error e2), s, [])
  | some e1, none =>
    let r2 := sendMoveCommit s m2 lag b w2
    ((Except.error e1, r2.1), r2.2.1, r2.2.2)
  | none, some e2 =>
    let r1 := sendMoveCommit s m1 lag b w1
    ((r1.1, Except.error e2), r1.2.1, r1.2.2)
  | none, none =>
    let r1 := sendMoveCommit s m1 lag b w1
    let r2 := sendMoveCommit r1.2.1 m2 lag b w2
    ((r1.1, r2.1), r2.2.1, r1.2.2 ++ r2.2.2)

/-- A freshly constructed session (`LichessWebSocket::new`): ack 0, not
ended, nothing pending, nothing acked. -/
def freshS : SessionState :=
  ⟨0, false, none, false, "abcd1234"⟩

/-- A session with a move pending. -/
def pendS : SessionState :=
  ⟨3, false, some "e2e4", false, "abcd1234"⟩

/-- A session whose game has ended while a move was still pending. -/
def endedPendS : SessionState :=
  ⟨3, true, some "e2e4", false, "abcd1234"⟩

/-- An inbound `move` frame whose payload carries only a ply. -/
def plyRead (p : Nat) : WsRead :=
  WsRead.text (some (LichessMsg.move (some ⟨some p, none, none, none, false, false⟩)))

/-! ## Helper lemmas -/

theorem moveAckUpdate_game_ended (s : SessionState) (d : MoveD) :
    (moveAckUpdate s d).game_ended = s.game_ended := by
  unfold moveAckUpdate
  cases d.ply <;> rfl

theorem processText_game_ended_mono (s : SessionState) (m : LichessMsg)
    (h : s.game_ended = true) : (processText s m).1.game_ended = true := by
  cases m with
  | ack => exact h
  | endData => rfl
  | move d =>
    cases d with
    | none => exact h
    | some d =>
      simp only [processText]
      split
      · rfl
      · rw [moveAckUpdate_game_ended]
        exact h
  | reload => exact h
  | resync => exact h
  | crowd => exact h
  | unknown => exact h

theorem drainGo_game_ended_mono (reads : List WsRead) :
    ∀ (s : SessionState) (acc : List String), s.game_ended = true →
      (drainGo s acc reads).1.game_ended = true := by
  induction reads with
  | nil => intro s acc h; exact h
  | cons r rest ih =>
    intro s acc h
    cases r with
    | text m =>
      cases m with
      | none => exact ih s acc h
      | some m => exact ih _ _ (processText_game_ended_mono s m h)
    | ping e =>
      cases e with
      | none => exact ih s acc h
      | some e => exact h
    | close => exact h
    | other => exact ih s acc h
    | wouldBlock => exact h
    | fatal e => exact h

theorem send_move_game_ended (s : SessionState) (uci : String) (lag : Nat)
    (b : Bool) (w : Option String) (h : s.game_ended = true) :
    send_move s uci lag b w = (Except.error "Game has ended", s, []) := by
  unfold send_move sendMoveCheck
  simp [h]

/-! ## Claim theorems -/

/-- C2: once `game_ended` is true, every `send_move` call returns the
game-ended error with no state change and no frame written, and no sequence
of processed frames — reload and resync included — ever resets `game_ended`;
in particular `send_move` still fails after any `process_messages` call. -/
theorem C2_game_ended_sticky (s : SessionState) (h : s.game_ended = true) :
    (∀ uci lag b w, send_move s uci lag b w = (Except.error "Game has ended", s, [])) ∧
    (∀ reads, (process_messages s reads).1.game_ended = true) ∧
    (∀ reads uci lag b w,
      send_move (process_messages s reads).1 uci lag b w =
        (Except.error "Game has ended", (process_messages s reads).1, [])) := by
  refine ⟨fun uci lag b w => send_move_game_ended s uci lag b w h,
          fun reads => drainGo_game_ended_mono reads s [] h,
          fun reads uci lag b w =>
            send_move_game_ended _ uci lag b w (drainGo_game_ended_mono reads s [] h)⟩

/-- Witness for C2 at a concrete ended session and a reload frame. -/
theorem C2_game_ended_sticky_witness :
    send_move endedPendS "d2d4" 20 false none =
      (Except.error "Game has ended", endedPendS, []) ∧
    (process_messages endedPendS [WsRead.text (some LichessMsg.reload),
        WsRead.text (some LichessMsg.resync)]).1.game_ended = true :=
  ⟨(C2_game_ended_sticky endedPendS rfl).1 "d2d4" 20 false none,
   (C2_game_ended_sticky endedPendS rfl).2.1
     [WsRead.text (some LichessMsg.reload), WsRead.text (some LichessMsg.resync)]⟩

/-- C3 counterexample: with the move `e2e4` pending, a `reload` frame does
clear `pending_move`, but `process_messages` returns `Ok([])` — zero events,
not the one `ResyncRequired` event the claim requires (no resync event
exists anywhere in the code). Same for `resync`. -/
theorem C3_counterexample :
    (process_messages pendS [WsRead.text (some LichessMsg.reload)]).1.pending_move = none ∧
    (process_messages pendS [WsRead.text (some LichessMsg.reload)]).2 = Except.ok [] ∧
    (process_messages pendS [WsRead.text (some LichessMsg.resync)]).2 = Except.ok [] :=
  ⟨rfl, rfl, rfl⟩

/-- C3 (amended): for every session state, a `reload` or `resync` frame
clears `pending_move` unconditionally and emits no event at all. -/
theorem C3_resync_clears_pending_no_event (s : SessionState) :
    processText s LichessMsg.reload = ({ s with pending_move := none }, []) ∧
    processText s LichessMsg.resync = ({ s with pending_move := none }, []) ∧
    process_messages s [WsRead.text (some LichessMsg.reload)] =
      ({ s with pending_move := none }, Except.ok []) ∧
    process_messages s [WsRead.text (some LichessMsg.resync)] =
      ({ s with pending_move := none }, Except.ok []) :=
  ⟨rfl, rfl, rfl, rfl⟩

/-- C4 counterexample: a fatal (non-would-block) read error makes
`process_messages` return plain success `Ok([])` — not a distinct fatal
error result. -/
theorem C4_counterexample :
    process_messages freshS [WsRead.fatal "connection reset"] =
      (freshS, Except.ok []) := rfl

/-- C4 (amended): a non-transient read failure only terminates the drain
loop: whatever events were already decoded are returned as a *success*; the
one error return of `process_messages` is a failed pong write. -/
theorem C4_fatal_read_returns_ok (s : SessionState) (acc : List String)
    (e : String) (rest : List WsRead) :
    drainGo s acc (WsRead.fatal e :: rest) = (s, Except.ok acc) ∧
    drainGo s acc (WsRead.ping (some e) :: rest) =
      (s, Except.error ("Failed to send pong: " ++ e)) :=
  ⟨rfl, rfl⟩

/-- C6 (code bug): the pending-move guard and the pending-move mutation of
`send_move` sit in two separate critical sections, so in the interleaving
where both guards run before either commit, two racing submissions on an
empty pending slot both return `Ok` and two frames are written — while the
sequential (atomic) semantics rejects the second with the move-pending
error. -/
theorem C6_check_set_not_atomic :
    racedSubmits freshS "e2e4" "d2d4" 20 false none none =
      ((Except.ok (), Except.ok ()),
       ⟨0, false, some "d2d4", false, "abcd1234"⟩,
       [⟨"e2e4", 0, 0, 20⟩, ⟨"d2d4", 0, 0, 20⟩]) ∧
    (send_move (send_move freshS "e2e4" 20 false none).2.1 "d2d4" 20 false none).1 =
      Except.error "Move already pending" :=
  ⟨rfl, rfl⟩

/-- C7: an `ack` frame clears `pending_move`, records acceptance in
`last_move_acked`, and adds no consumer-visible event. -/
theorem C7_ack_clears_pending (s : SessionState) :
    processText s LichessMsg.ack =
      ({ s with pending_move := none, last_move_acked := true }, []) ∧
    process_messages s [WsRead.text (some LichessMsg.ack)] =
      ({ s with pending_move := none, last_move_acked := true }, Except.ok []) :=
  ⟨rfl, rfl⟩

/-- C1 counterexample: in the session state where the game has ended while
`e2e4` is still pending, `pending_move` is `Some` yet `send_move` returns
the game-ended error, not the move-pending error: the `game_ended` guard
runs first in the source. -/
theorem C1_counterexample :
    endedPendS.pending_move.isSome = true ∧
    send_move endedPendS "d2d4" 20 false none =
      (Except.error "Game has ended", endedPendS, []) :=
  ⟨rfl, rfl⟩

/-- C1 (amended): while a move is pending *and the game has not ended*,
`send_move` returns the move-pending error with no state change and no
frame written (when the game has ended, the game-ended error takes
precedence); and in general every erroring call writes no frame while every
successful call writes exactly one. -/
theorem C1_write_discipline (s : SessionState) (uci : String) (lag : Nat)
    (b : Bool) (w : Option String) :
    (s.game_ended = false → s.pending_move.isSome = true →
      send_move s uci lag b w = (Except.error "Move already pending", s, [])) ∧
    (∀ e, (send_move s uci lag b w).1 = Except.error e →
      (send_move s uci lag b w).2.2 = []) ∧
    (∀ u, (send_move s uci lag b w).1 = Except.ok u →
      (send_move s uci lag b w).2.2.length = 1) := by
  unfold send_move sendMoveCheck sendMoveCommit
  by_cases hg : s.game_ended <;> by_cases hp : s.pending_move.isSome <;>
    cases w <;> simp [hg, hp]

/-- Witness for C1 at concrete states: the pending rejection at `pendS`,
an error path writing nothing, and a success path writing one frame. -/
theorem C1_write_discipline_witness :
    send_move pendS "d2d4" 20 false none =
      (Except.error "Move already pending", pendS, []) ∧
    (send_move freshS "e2e4" 20 false (some "broken pipe")).2.2 = [] ∧
    (send_move freshS "e2e4" 20 false none).2.2.length = 1 :=
  ⟨(C1_write_discipline pendS "d2d4" 20 false none).1 rfl rfl,
   (C1_write_discipline freshS "e2e4" 20 false (some "broken pipe")).2.1
     ("Failed to send move: " ++ "broken pipe") rfl,
   (C1_write_discipline freshS "e2e4" 20 false none).2.2 () rfl⟩

/-- C10: when both guards pass but the transport write fails, `send_move`
returns the transport error yet leaves `pending_move = Some(uci)` (set
before the write, never rolled back); every later submission is then
rejected with the move-pending error, until an ack, reload, or resync frame
clears the slot. -/
theorem C10_failed_write_keeps_pending (s : SessionState) (uci : String)
    (lag : Nat) (b : Bool) (e : String)
    (hg : s.game_ended = false) (hp : s.pending_move = none) :
    send_move s uci lag b (some e) =
      (Except.error ("Failed to send move: " ++ e),
       { s with pending_move := some uci, last_move_acked := false }, []) ∧
    (∀ uci2 lag2 b2 w2,
      send_move { s with pending_move := some uci, last_move_acked := false }
          uci2 lag2 b2 w2 =
        (Except.error "Move already pending",
         { s with pending_move := some uci, last_move_acked := false }, [])) ∧
    (processText { s with pending_move := some uci, last_move_acked := false }
      LichessMsg.ack).1.pending_move = none ∧
    (processText { s with pending_move := some uci, last_move_acked := false }
      LichessMsg.reload).1.pending_move = none ∧
    (processText { s with pending_move := some uci, last_move_acked := false }
      LichessMsg.resync).1.pending_move = none := by
  refine ⟨?_, fun uci2 lag2 b2 w2 => ?_, rfl, rfl, rfl⟩
  · unfold send_move sendMoveCheck sendMoveCommit
    simp [hg, hp]
  · unfold send_move sendMoveCheck
    simp [hg]

/-- Witness for C10 at a fresh session and a broken-pipe write failure. -/
theorem C10_failed_write_keeps_pending_witness :
    send_move freshS "e2e4" 20 false (some "broken pipe") =
      (Except.error ("Failed to send move: " ++ "broken pipe"),
       { freshS with pending_move := some "e2e4", last_move_acked := false }, []) ∧
    send_move { freshS with pending_move := some "e2e4", last_move_acked := false }
        "d2d4" 20 false none =
      (Except.error "Move already pending",
       { freshS with pending_move := some "e2e4", last_move_acked := false }, []) :=
  ⟨(C10_failed_write_keeps_pending freshS "e2e4" 20 false "broken pipe" rfl rfl).1,
   (C10_failed_write_keeps_pending freshS "e2e4" 20 false "broken pipe" rfl rfl).2.1
     "d2d4" 20 false none⟩

/-- When the duplicate guard does not fire, `execute_auto_move` records
`(uci, now)` as the last submission and otherwise behaves exactly as the
underlying `send_move` with the panic-mode lag and berserk flag. -/
theorem exec_delegates (c : AutoMoveController) (uci : String) (now : Nat)
    (s : SessionState) (w : Option String)
    (h : isDuplicate c uci now = false) :
    execute_auto_move c uci now s w =
      (isOkB (send_move s uci (if c.panic_mode then 50 else 20) c.panic_mode w).1,
       { c with last_move_sent := some uci, last_move_time := some now },
       (send_move s uci (if c.panic_mode then 50 else 20) c.panic_mode w).2.1,
       (send_move s uci (if c.panic_mode then 50 else 20) c.panic_mode w).2.2) := by
  unfold execute_auto_move
  rcases hr : send_move s uci (if c.panic_mode then 50 else 20) c.panic_mode w
    with ⟨r1, s1, fs⟩
  cases r1 <;> simp [h, hr, isOkB]

/-- C5: with `(lastUci, t0)` recorded as the previous submission, a call for
the identical move less than 500 ms later is suppressed — `false` is
returned, and neither the controller, the session, nor the transport is
touched; a call at least 500 ms later, or for a different move, is not
suppressed and is delegated to the session's `send_move`. -/
theorem C5_duplicate_window (c : AutoMoveController) (uci lastUci : String)
    (t0 now : Nat) (s : SessionState) (w : Option String)
    (hl : c.last_move_sent = some lastUci) (ht : c.last_move_time = some t0) :
    (lastUci = uci → now - t0 < 500 →
      execute_auto_move c uci now s w = (false, c, s, [])) ∧
    (500 ≤ now - t0 ∨ lastUci ≠ uci →
      execute_auto_move c uci now s w =
        (isOkB (send_move s uci (if c.panic_mode then 50 else 20) c.panic_mode w).1,
         { c with last_move_sent := some uci, last_move_time := some now },
         (send_move s uci (if c.panic_mode then 50 else 20) c.panic_mode w).2.1,
         (send_move s uci (if c.panic_mode then 50 else 20) c.panic_mode w).2.2)) := by
  constructor
  · intro hEq hlt
    have hdup : isDuplicate c uci now = true := by
      unfold isDuplicate
      rw [hl, ht, hEq]
      simp [hlt]
    simp [execute_auto_move, hdup]
  · intro hfar
    refine exec_delegates c uci now s w ?_
    unfold isDuplicate
    rw [hl, ht]
    rcases hfar with hfar | hne
    · simp [Nat.not_lt.mpr hfar]
    · simp [hne]

/-- Witness for C5: same move 100 ms apart is suppressed; same move 600 ms
apart is delegated. -/
theorem C5_duplicate_window_witness :
    execute_auto_move ⟨true, false, false, some "e2e4", some 1000⟩ "e2e4" 1100 freshS none =
      (false, ⟨true, false, false, some "e2e4", some 1000⟩, freshS, []) ∧
    execute_auto_move ⟨true, false, false, some "e2e4", some 1000⟩ "e2e4" 1600 freshS none =
      (isOkB (send_move freshS "e2e4"
          (if (⟨true, false, false, some "e2e4", some 1000⟩ : AutoMoveController).panic_mode
           then 50 else 20)
          (⟨true, false, false, some "e2e4", some 1000⟩ : AutoMoveController).panic_mode none).1,
       { (⟨true, false, false, some "e2e4", some 1000⟩ : AutoMoveController) with
           last_move_sent := some "e2e4", last_move_time := some 1600 },
       (send_move freshS "e2e4"
          (if (⟨true, false, false, some "e2e4", some 1000⟩ : AutoMoveController).panic_mode
           then 50 else 20)
          (⟨true, false, false, some "e2e4", some 1000⟩ : AutoMoveController).panic_mode none).2.1,
       (send_move freshS "e2e4"
          (if (⟨true, false, false, some "e2e4", some 1000⟩ : AutoMoveController).panic_mode
           then 50 else 20)
          (⟨true, false, false, some "e2e4", some 1000⟩ : AutoMoveController).panic_mode none).2.2) :=
  ⟨(C5_duplicate_window ⟨true, false, false, some "e2e4", some 1000⟩ "e2e4" "e2e4"
      1000 1100 freshS none rfl rfl).1 rfl (by decide),
   (C5_duplicate_window ⟨true, false, false, some "e2e4", some 1000⟩ "e2e4" "e2e4"
      1000 1600 freshS none rfl rfl).2 (Or.inl (by decide))⟩

/-- C9: every non-suppressed dispatcher submission records `(uci, now)` as
the new last submission (whatever the session answers), and delegates to
`send_move` with `lag_ms = 20, berserked = false` when panic mode is off and
`lag_ms = 50, berserked = true` when panic mode is on. -/
theorem C9_lag_and_recording (c : AutoMoveController) (uci : String)
    (now : Nat) (s : SessionState) (w : Option String)
    (h : isDuplicate c uci now = false) :
    (c.panic_mode = false →
      execute_auto_move c uci now s w =
        (isOkB (send_move s uci 20 false w).1,
         { c with last_move_sent := some uci, last_move_time := some now },
         (send_move s uci 20 false w).2.1, (send_move s uci 20 false w).2.2)) ∧
    (c.panic_mode = true →
      execute_auto_move c uci now s w =
        (isOkB (send_move s uci 50 true w).1,
         { c with last_move_sent := some uci, last_move_time := some now },
         (send_move s uci 50 true w).2.1, (send_move s uci 50 true w).2.2)) ∧
    (execute_auto_move c uci now s w).2.1 =
      { c with last_move_sent := some uci, last_move_time := some now } := by
  refine ⟨fun hp => ?_, fun hp => ?_, ?_⟩
  · rw [exec_delegates c uci now s w h, hp]
    simp
  · rw [exec_delegates c uci now s w h, hp]
    simp
  · rw [exec_delegates c uci now s w h]

/-- Witness for C9 with a fresh controller (no previous submission). -/
theorem C9_lag_and_recording_witness :
    execute_auto_move AutoMoveController.new "e2e4" 1000 freshS none =
      (isOkB (send_move freshS "e2e4" 20 false none).1,
       { AutoMoveController.new with
           last_move_sent := some "e2e4", last_move_time := some 1000 },
       (send_move freshS "e2e4" 20 false none).2.1,
       (send_move freshS "e2e4" 20 false none).2.2) :=
  (C9_lag_and_recording AutoMoveController.new "e2e4" 1000 freshS none rfl).1 rfl

/-- Draining a nonempty run of ply-carrying move frames leaves the ack
counter at the ply of the last frame (truncated to `u32`), whatever it was
before. -/
theorem drainGo_plys_last (rest : List Nat) :
    ∀ (p : Nat) (s : SessionState) (acc : List String),
      (drainGo s acc ((p :: rest).map plyRead)).1.current_ack =
        rest.getLastD p % 4294967296 := by
  induction rest with
  | nil => intro p s acc; rfl
  | cons q rest' ih =>
    intro p s acc
    rw [List.getLastD_cons]
    exact ih q _ _

/-- C8: the ack counter after a run of ply-carrying move frames is the ply
of the last frame processed — an authoritative overwrite, not a maximum: a
ply-7 frame followed by a ply-5 frame leaves `current_ack = 5`, and the next
`send_move` whose guards pass embeds that value as the `a` field of its
outgoing frame. -/
theorem C8_ack_overwrite (s : SessionState) (p : Nat) (rest : List Nat) :
    ((process_messages s ((p :: rest).map plyRead)).1.current_ack =
      rest.getLastD p % 4294967296) ∧
    ((process_messages s [plyRead 7, plyRead 5]).1.current_ack = 5) ∧
    (∀ uci lag b,
      sendMoveCheck (process_messages s [plyRead 7, plyRead 5]).1 = none →
      (send_move (process_messages s [plyRead 7, plyRead 5]).1 uci lag b none).2.2 =
        [⟨uci, 5, if b then 1 else 0, lag⟩]) := by
  refine ⟨drainGo_plys_last rest p s [], rfl, fun uci lag b h => ?_⟩
  unfold send_move
  rw [h]
  rfl

/-- Witness for C8: the 7-then-5 run on a fresh session, followed by a
submission embedding ack 5. -/
theorem C8_ack_overwrite_witness :
    (process_messages freshS ((7 :: [5]).map plyRead)).1.current_ack =
      [5].getLastD 7 % 4294967296 ∧
    (send_move (process_messages freshS [plyRead 7, plyRead 5]).1
      "e2e4" 20 false none).2.2 = [⟨"e2e4", 5, if false then 1 else 0, 20⟩] :=
  ⟨(C8_ack_overwrite freshS 7 [5]).1,
   (C8_ack_overwrite freshS 7 [5]).2.2 "e2e4" 20 false rfl⟩
